import Mathlib

set_option maxRecDepth 16384
set_option maxHeartbeats 1000000

/-
Verification of the request-orchestration core of the Social-SEO-AI client.

The development shallowly embeds the request builder (`analyzeContent`),
the large-file upload helper (`uploadLargeFile`), the reply cleaner
(`cleanJson`), the TrendHunter reply normalization, the prompt templates
from `constants.ts`, and the size validation of `handleAnalyze` in `App.tsx`.
JS strings are modelled as `List Char` where character-level operations
matter (trim, startsWith, regex strip, prompt concatenation) and as `String`
where values are only moved around whole.  Machine-level details that the
claims do not touch (base64 payload bytes, the HTTP transport, timers) are
modelled by opaque sizes or by an explicit environment of effects.
-/

/-- Character list of a string literal.  JS string values are embedded as
`List Char` so that positional operations (drop, take, reverse) can be
reasoned about directly. -/
def cs (s : String) : List Char := s.data

/-- Character list of a string literal in which each tilde stands for an
apostrophe (code point 39).  Used to embed source texts that contain
apostrophes; the embedded texts contain no literal tilde. -/
def csq (s : String) : List Char :=
  s.data.map (fun c => if c = '~' then Char.ofNat 39 else c)

/-- Whitespace test matching the characters that the JS `trim` and the
regex class `\s` remove in the texts at hand: space, tab, line feed,
carriage return, vertical tab, form feed.  (JS `\s` also covers exotic
Unicode spaces; none of the strings the program manipulates contain
them.) -/
def isJsWhitespace (c : Char) : Bool :=
  c = ' ' || c = '\t' || c = '\n' || c = '\r' || c = Char.ofNat 11 || c = Char.ofNat 12

/-- Leading-whitespace strip, the left half of JS `String.prototype.trim`. -/
def trimLeft (s : List Char) : List Char := s.dropWhile isJsWhitespace

/-- Trailing-whitespace strip, the right half of JS `String.prototype.trim`. -/
def trimRight (s : List Char) : List Char :=
  (s.reverse.dropWhile isJsWhitespace).reverse

/-- JS `text.trim()`. -/
def jsTrim (s : List Char) : List Char := trimRight (trimLeft s)

/-- Model of `.replace(/\s*```$/, '')`: the regex matches exactly when the
string ends with three backticks, and then removes that fence together
with the maximal whitespace run immediately before it. -/
def stripTrailingFence (r : List Char) : List Char :=
  if (cs "```").isSuffixOf r then trimRight (r.take (r.length - 3)) else r

/-- `cleanJson` from `geminiService.ts`:
trims the reply, then strips one leading fence (tagged "```json" or bare
"```", via `.replace(/^```json\s*/, '')` or `.replace(/^```\s*/, '')`) and
one trailing fence (via `.replace(/\s*```$/, '')`). -/
def cleanJson (text : List Char) : List Char :=
  let clean := jsTrim text
  if (cs "```json").isPrefixOf clean then
    stripTrailingFence ((clean.drop 7).dropWhile isJsWhitespace)
  else if (cs "```").isPrefixOf clean then
    stripTrailingFence ((clean.drop 3).dropWhile isJsWhitespace)
  else clean

/-- Substring test, modelling JS `String.prototype.includes`. -/
def containsSub (hay sub : List Char) : Bool :=
  match hay with
  | [] => sub.isEmpty
  | _ :: t => sub.isPrefixOf hay || containsSub t sub

/-- Decimal digit character, as produced by JS number-to-string coercion. -/
def digitChar (d : Nat) : Char :=
  if d % 10 = 0 then '0' else if d % 10 = 1 then '1' else if d % 10 = 2 then '2'
  else if d % 10 = 3 then '3' else if d % 10 = 4 then '4' else if d % 10 = 5 then '5'
  else if d % 10 = 6 then '6' else if d % 10 = 7 then '7' else if d % 10 = 8 then '8' else '9'

/-- Decimal representation of a natural number as a character list,
matching JS template interpolation of a nonnegative integer. -/
def natChars (n : Nat) : List Char :=
  if _h : n < 10 then [digitChar n]
  else natChars (n / 10) ++ [digitChar (n % 10)]
  decreasing_by exact Nat.div_lt_self (by omega) (by omega)

/-- JSON escape for one character inside a double-quoted JSON string. -/
def escapeChar (c : Char) : List Char :=
  if c = '"' then ['\\', '"']
  else if c = '\\' then ['\\', '\\']
  else if c = '\n' then ['\\', 'n']
  else if c = '\r' then ['\\', 'r']
  else if c = '\t' then ['\\', 't']
  else [c]

mutual

/-- JSON values, the domain that claim C7 quantifies over.  Numbers are
restricted to naturals; the claim concerns the shape of the serialized
text, for which this subset is representative. -/
inductive Json where
  | null : Json
  | bool (b : Bool) : Json
  | num (n : Nat) : Json
  | str (s : List Char) : Json
  | arr (elems : List Json) : Json
  | obj (fields : List JField) : Json

/-- A key/value member of a JSON object. -/
inductive JField where
  | mk (key : List Char) (val : Json) : JField

end

mutual

/-- Compact serialization of a JSON value, as `JSON.stringify` produces. -/
def serializeJson : Json → List Char
  | Json.null => cs "null"
  | Json.bool b => if b then cs "true" else cs "false"
  | Json.num n => natChars n
  | Json.str s => '"' :: ((s.map escapeChar).flatten ++ ['"'])
  | Json.arr es => '[' :: (serializeSeq es ++ [']'])
  | Json.obj fs => Char.ofNat 123 :: (serializeFields fs ++ [Char.ofNat 125])

/-- Comma-separated serialization of array elements. -/
def serializeSeq : List Json → List Char
  | [] => []
  | [v] => serializeJson v
  | v :: vs => serializeJson v ++ ',' :: serializeSeq vs

/-- Comma-separated serialization of object members. -/
def serializeFields : List JField → List Char
  | [] => []
  | [JField.mk k v] =>
      '"' :: ((k.map escapeChar).flatten ++ '"' :: ':' :: serializeJson v)
  | JField.mk k v :: fs =>
      '"' :: ((k.map escapeChar).flatten ++ '"' :: ':' :: serializeJson v)
        ++ ',' :: serializeFields fs

end

/-- Operating modes, from `types.ts` as used by `App.tsx` and
`geminiService.ts`.  Only the identity of each variant matters; all
comparisons in the source are against the enum member itself. -/
inductive AppMode where
  | GENERATION
  | REFINE
  | COMPETITOR_SPY
  | TREND_HUNTER
deriving DecidableEq

/-- Target platforms, from `types.ts`. -/
inductive Platform where
  | INSTAGRAM
  | TIKTOK
  | YOUTUBE
  | LINKEDIN
  | TWITTER
  | FACEBOOK
deriving DecidableEq

/-- Modelled from the spec: `types.ts` is not under `src/`, so the string
value of each platform enum member is missing.  The values follow spec §3
(Instagram, TikTok, YouTube, LinkedIn, Twitter/X, Facebook) together with
the literal comparison `platform === 'Twitter (X)'` in `constants.ts`. -/
def Platform.toStr : Platform → List Char
  | Platform.INSTAGRAM => cs "Instagram"
  | Platform.TIKTOK => cs "TikTok"
  | Platform.YOUTUBE => cs "YouTube"
  | Platform.LINKEDIN => cs "LinkedIn"
  | Platform.TWITTER => cs "Twitter (X)"
  | Platform.FACEBOOK => cs "Facebook"

/-- The `config` argument of `analyzeContent`.  Optional JS string fields
are embedded as `List Char` with `[]` standing for both `undefined` and
the empty string, which the source treats identically (all accesses are
truthiness tests or `|| default`). -/
structure Config where
  goal : List Char
  style : List Char
  keywords : List Char
  originalText : List Char
  geography : List Char
  targetAudience : List Char
  targetLanguage : List Char
  demographics : List Char
  enableLiveTrends : Bool
  brandGuidelines : List Char
  niche : List Char

/-- JS `x || d` on an optional string field. -/
def jsOrStr (v d : List Char) : List Char := if v = [] then d else v

/-- The four-element array of conditionally labeled targeting lines built
at the top of `analyzeContent` (before `.filter(Boolean)`). -/
def targetingRaw (cfg : Config) : List (List Char) :=
  [ if cfg.geography ≠ [] then cs "Target Geography: " ++ cfg.geography else []
  , if cfg.targetAudience ≠ [] then cs "Target Audience: " ++ cfg.targetAudience else []
  , if cfg.targetLanguage ≠ [] then cs "Target Language: " ++ cfg.targetLanguage else []
  , if cfg.demographics ≠ [] then cs "Target Demographics: " ++ cfg.demographics else [] ]

/-- The `.filter(Boolean)` step: empty strings are falsy and dropped. -/
def targetingParts (cfg : Config) : List (List Char) :=
  (targetingRaw cfg).filter (fun s => !s.isEmpty)

/-- The `targeting` string of `analyzeContent`: the non-empty labeled
lines joined with a newline. -/
def targeting (cfg : Config) : List Char :=
  List.intercalate (cs "\n") (targetingParts cfg)

/-- `TREND_HUNTER_INSTRUCTION` from `constants.ts`.  The optional
`platform` parameter is compared against the literal `'Twitter (X)'`;
tildes in the embedded text stand for apostrophes (see `csq`). -/
def TREND_HUNTER_INSTRUCTION (currentDate : List Char) (platform : Option (List Char)) : List Char :=
  cs "\n**LIVE TREND MODE ENABLED**\nSTEP 1: You have access to Google Search. Before analyzing the video, SEARCH for \"Current viral trends "
  ++ currentDate
  ++ cs "\" and \"Trending audio for [Niche] on Instagram/TikTok\".\n"
  ++ (if platform = some (cs "Twitter (X)") then
        cs "STEP 1b: Specifically SEARCH for \"Trending topics on Twitter today\" and \"Viral discussions on X\"."
      else [])
  ++ csq "\nSTEP 2: Use this live data to suggest a specific trending audio or challenge format that fits the user~s video.\nSTEP 3: Mention the trend name in the reasoning section (specifically in the ~trendDetected~ field).\n"

/-- `BRAND_GUARD_INSTRUCTION` from `constants.ts`. -/
def BRAND_GUARD_INSTRUCTION (brandText : List Char) : List Char :=
  cs "\n**BRAND GUARD ACTIVE**\nThe user has provided strict Brand Guidelines. You MUST adhere to the following rules:\n\""
  ++ brandText
  ++ cs "\"\n- If the generated content violates these rules, the analysis is a failure.\n- Adapt all specific stylistic choices to match this brand voice.\n"

/-- `SYSTEM_INSTRUCTION` from `constants.ts` (tildes stand for
apostrophes, see `csq`). -/
def SYSTEM_INSTRUCTION : List Char :=
  csq "\nYou are SocialSEO AI, the world~s most advanced Social Media Algorithm Architect & Behavioral Psychologist (Identity: v.Andromeda Update).\nYour Mission: Ingest multi-modal content to generate scientifically optimized viral metadata.\nStandard: Zero hallucination. Maximum algorithmic relevance. Deep psychological adherence.\n\nTHE HOOK LIBRARY (Strict Definitions):\n1. Intriguing Questions: Questions that make the audience reflect on their own experiences.\n2. Bold/Startling Statements: Unexpected claims or strong stances.\n3. Compelling Visuals: First-frame dominance using bold text overlay or surprising visual action.\n4. Storytelling Snippets: Starting in media res.\n5. Urgency/Scarcity: Creating FOMO.\n6. Problem/Solution: Direct addressing of pain points.\n7. Authority: Leveraging expertise.\n\nPLATFORM ARCHITECTURE:\n- Instagram: Reels (Loopable, Keyword-rich hook) / Carousels (Slide structure).\n- TikTok: Hyper-casual, slang-heavy, SEO keywords in first 3s.\n- YouTube: Shorts (<50 chars title) / Long-form (CTR title, Chapters).\n- LinkedIn: Bro-etry formatting, professional but vulnerable.\n- Twitter (X): Focus on Threads (Hook tweet -> Body tweets). Tone: Intellectual, contrarian, or news-focused. Strict character limits per tweet. Use highly specific ~Trending Topics~.\n- Facebook: Focus on Community & Storytelling. Tone: Warmer, slightly longer form, optimized for shares in Groups. Visuals: ~Meme-style~ images or ~Text-on-background~ posts.\n\nBRAND GUARD:\nIf brand guidelines are provided, treat them as immutable laws. Never use forbidden words. Match tone exactly.\n\nOUTPUT FORMAT:\nYou must return a raw JSON object based on the requested schema. Do not include markdown formatting like ```json.\n"

/-- `MODE_PROMPTS.GENERATION` from `constants.ts`. -/
def MODE_PROMPTS_GENERATION (platform goal style targetingText : List Char) : List Char :=
  cs "\n    MODE A: GENERATION (The Creator).\n    Target Platform: "
  ++ platform ++ cs ".\n    User Goal: "
  ++ goal ++ cs ".\n    Desired Style: "
  ++ style ++ cs ".\n    "
  ++ targetingText
  ++ csq "\n    \n    Analyze the provided input (Image/Video). \n    Identify the visual hook, select a viral style, write the caption, and generate SEO.\n    \n    If Platform is Twitter (X): Structure the ~caption~ as a Thread (Tweet 1 [Hook] \n\n Tweet 2... etc).\n    If Platform is Facebook: Optimize for ~Shareability~ and community discussion.\n    \n    Return a JSON object matching the AnalysisResult interface.\n  "

/-- `MODE_PROMPTS.REFINE` from `constants.ts`. -/
def MODE_PROMPTS_REFINE (originalText keywords targetingText : List Char) : List Char :=
  cs "\n    MODE B: REFINE DRAFT (The Editor).\n    Context/Keywords: "
  ++ keywords ++ cs ".\n    Original Draft: \""
  ++ originalText ++ cs "\".\n    "
  ++ targetingText
  ++ csq "\n    \n    Action: Semantic Weaving. Insert high-volume keywords naturally without disrupting narrative flow.\n    Maintain original meaning 100%. Polish grammar. Enhance readability score.\n    Return a JSON object where the ~strategy.caption~ is the refined text, and fill other fields based on analysis of the text.\n  "

/-- `MODE_PROMPTS.COMPETITOR_SPY` from `constants.ts`. -/
def MODE_PROMPTS_COMPETITOR_SPY (count : Nat) (targetingText : List Char) : List Char :=
  cs "\n    MODE C: COMPETITOR SPY (The Reverse Engineer).\n    Analyzing "
  ++ natChars count ++ cs " inputs as a \"Data Set\".\n    "
  ++ targetingText
  ++ csq "\n    Do NOT analyze individually. Look for patterns.\n    Deconstruct the \"Viral DNA\": Pacing, Color Psychology, Hook ID.\n    \n    Return a JSON object. \n    - In ~visualAudit.summary~, describe the common pattern found across all inputs.\n    - In ~strategy.caption~, provide a fill-in-the-blank Viral Template tailored to the target audience.\n    - In ~competitorInsights~, fill the object with ~visualTheme~, ~ctaStrategy~, and ~formula~.\n  "

/-- `MODE_PROMPTS.TREND_HUNTER` from `constants.ts` (braces in the sample
structure are written as hex escapes). -/
def MODE_PROMPTS_TREND_HUNTER (niche currentDate : List Char) : List Char :=
  cs "\n    MODE: TREND HUNTER.\n    Niche: "
  ++ niche ++ cs ".\n    Date: "
  ++ currentDate
  ++ cs ".\n    \n    STEP 1: Search Google Trends, Twitter Trending, and TikTok Creative Center for the absolute latest news and trends in the "
  ++ niche
  ++ cs " niche RIGHT NOW.\n    STEP 2: Select 5 specific, high-potential content ideas.\n    \n    Return a JSON object containing an array called \"trends\".\n    Structure:\n    \x7b\n      \"trends\": [\n        \x7b\n          \"headline\": \"Trend Name\",\n          \"whyItsHot\": \"1 sentence explanation of why it is viral now.\",\n          \"contentIdea\": \"Specific instruction on how to apply this to the niche.\"\n        \x7d,\n        ... (5 items)\n      ]\n    \x7d\n  "

/-- The prompt-assembly section of `analyzeContent` (steps 1 of the
source): TrendHunter mode uses its own template (after the niche
precondition), every other mode concatenates the optional live-trend
block, the optional brand-guard block, the fixed IMPORTANT line, and the
mode template. -/
def composePrompt (mode : AppMode) (platform : Platform) (cfg : Config)
    (currentDate : List Char) (fileCount : Nat) : Except (List Char) (List Char) :=
  if mode = AppMode.TREND_HUNTER then
    if cfg.niche = [] then Except.error (cs "Niche is required for Trend Hunter.")
    else Except.ok (MODE_PROMPTS_TREND_HUNTER cfg.niche currentDate)
  else
    Except.ok
      ((if cfg.enableLiveTrends then
          TREND_HUNTER_INSTRUCTION currentDate (some platform.toStr) ++ cs "\n\n"
        else [])
      ++ (if cfg.brandGuidelines ≠ [] then
            BRAND_GUARD_INSTRUCTION cfg.brandGuidelines ++ cs "\n\n"
          else [])
      ++ cs "IMPORTANT: You MUST return a valid JSON object matching the AnalysisResult structure. Do not include markdown formatting.\n\n"
      ++ (match mode with
          | AppMode.GENERATION =>
              MODE_PROMPTS_GENERATION platform.toStr (jsOrStr cfg.goal (cs "Viral Growth"))
                (jsOrStr cfg.style (cs "Authentic")) (targeting cfg)
          | AppMode.REFINE =>
              MODE_PROMPTS_REFINE cfg.originalText cfg.keywords (targeting cfg)
          | AppMode.COMPETITOR_SPY =>
              MODE_PROMPTS_COMPETITOR_SPY fileCount (targeting cfg)
          | AppMode.TREND_HUNTER => []))

/-- Remote file status record returned by `ai.files.get`, as read by
`uploadLargeFile`. -/
structure FileInfo where
  state : String
  uri : String
  mimeType : String
deriving DecidableEq

/-- The `fileData` payload that `uploadLargeFile` returns on success. -/
structure FilePart where
  fileUri : String
  mimeType : String
deriving DecidableEq

/-- Environment of external effects used by `uploadLargeFile`:
`upload` is the result of `ai.files.upload` (name of the handle, or a
transport error), `getFile k` is the result of the k-th call to
`ai.files.get` (the call before the loop is `getFile 0`, the k-th poll
inside the loop is `getFile k`). -/
structure UploadEnv where
  upload : Except String String
  getFile : Nat → Except String FileInfo

/-- The polling loop of `uploadLargeFile`:
`while (fileInfo.state === 'PROCESSING' && attempts < 30)` re-fetches the
file status and increments `attempts`.  The loop is embedded structurally
on `fuel = 30 - attempts`, so the entry guard `attempts < 30` is exactly
`fuel > 0`; the initial call passes `fuel = 30`, `attempts = 0`. -/
def pollLoop (getFile : Nat → Except String FileInfo) : Nat → FileInfo → Nat → Except String FileInfo
  | 0, info, _ => Except.ok info
  | fuel + 1, info, attempts =>
    if info.state = "PROCESSING" then
      match getFile (attempts + 1) with
      | Except.error e => Except.error e
      | Except.ok info2 => pollLoop getFile fuel info2 (attempts + 1)
    else Except.ok info

/-- The body of the `try` block of `uploadLargeFile`: upload, initial
status fetch, poll loop, terminal FAILED check, success payload. -/
def uploadLargeFileInner (env : UploadEnv) : Except String FilePart :=
  match env.upload with
  | Except.error e => Except.error e
  | Except.ok _name =>
    match env.getFile 0 with
    | Except.error e => Except.error e
    | Except.ok info0 =>
      match pollLoop env.getFile 30 info0 0 with
      | Except.error e => Except.error e
      | Except.ok fi =>
        if fi.state = "FAILED" then
          Except.error "File processing failed on Gemini server."
        else Except.ok { fileUri := fi.uri, mimeType := fi.mimeType }

/-- The single message into which the `catch` of `uploadLargeFile` wraps
every error thrown inside its `try` block. -/
def UPLOAD_FAIL_MESSAGE : String :=
  "Failed to upload large file to Gemini. Please try a smaller file."

/-- `uploadLargeFile` from `geminiService.ts`: the `try` body with its
`catch`, which rethrows any error as `UPLOAD_FAIL_MESSAGE`. -/
def uploadLargeFile (env : UploadEnv) : Except String FilePart :=
  match uploadLargeFileInner env with
  | Except.ok p => Except.ok p
  | Except.error _ => Except.error UPLOAD_FAIL_MESSAGE

/-- The generic fallback message of the outer `catch` of
`analyzeContent`. -/
def CONNECTION_FAILED_MESSAGE : String :=
  "Connection Failed. Please check your API Key or Internet connection."

/-- The outer `catch` of `analyzeContent` (lines 272-281): the message of
the caught error is tested with `includes` for the substrings `413`,
`too large`, `timeout`, `timed out`, and otherwise replaced by the
generic connection-failure message. -/
def mapAnalyzeError (msg : String) : String :=
  if containsSub msg.data (cs "413") || containsSub msg.data (cs "too large") then
    "The file is too large for the current connection. Please try a smaller file."
  else if containsSub msg.data (cs "timeout") || containsSub msg.data (cs "timed out") then
    "Request timed out. Please check your internet connection and try again."
  else CONNECTION_FAILED_MESSAGE

/-- A trend entry, from `types.ts` as rendered by `App.tsx`. -/
structure TrendItem where
  headline : String
  whyItsHot : String
  contentIdea : String
deriving DecidableEq

/-- The parsed TrendHunter reply as inspected by `analyzeContent`
(lines 249-261): an optional `trends` array plus the optional top-level
fallback fields.  `none` stands for an absent key. -/
structure ParsedTrendReply where
  trends : Option (List TrendItem)
  trend : Option String
  headline : Option String
  whyItsHot : Option String
  contentIdea : Option String

/-- JS truthiness of an optional string value: absent and empty are
falsy. -/
def truthy : Option String → Bool
  | some s => !(s == "")
  | none => false

/-- JS `parsed.field || "default"` on an optional string value. -/
def jsOrDefault (v : Option String) (d : String) : String :=
  match v with
  | some s => if s = "" then d else s
  | none => d

/-- The typed no-trends error message of `analyzeContent`. -/
def NO_TRENDS_MESSAGE : String :=
  "No valid trends found. Please try again with a different niche or check your internet connection."

/-- The fallback branch of the TrendHunter normalization: if any of
`parsed.trend`, `parsed.contentIdea`, `parsed.headline` is truthy, a
single synthesized item is returned with per-field defaults; otherwise
the typed no-trends error is thrown. -/
def trendFallback (p : ParsedTrendReply) : Except String (List TrendItem) :=
  if truthy p.trend || truthy p.contentIdea || truthy p.headline then
    Except.ok [{ headline := jsOrDefault p.headline "Trend Detected",
                 whyItsHot := jsOrDefault p.whyItsHot "Currently trending in your niche",
                 contentIdea := jsOrDefault p.contentIdea "Create content around this trend" }]
  else Except.error NO_TRENDS_MESSAGE

/-- The TrendHunter result normalization of `analyzeContent`: a present
non-empty `trends` array is returned as is, otherwise the fallback
applies.  (The source also guards with `Array.isArray`, which the typed
embedding makes automatic.) -/
def normalizeTrendReply (p : ParsedTrendReply) : Except String (List TrendItem) :=
  match p.trends with
  | some l => if l.length > 0 then Except.ok l else trendFallback p
  | none => trendFallback p

/-- `MAX_TOTAL_SIZE` from `handleAnalyze` in `App.tsx`: 100 MiB. -/
def MAX_TOTAL_SIZE : Nat := 100 * 1024 * 1024

/-- `files.reduce((sum, f) => sum + f.size, 0)` over the byte sizes. -/
def totalSize (files : List Nat) : Nat := files.foldl (· + ·) 0

/-- Outcome of the combined-size gate in `handleAnalyze`: either the
request is rejected with the validation message before `analyzeContent`
is invoked, or it proceeds to `analyzeContent` with the file list. -/
inductive AnalyzeGate where
  | rejected (msg : String)
  | proceeded (files : List Nat)
deriving DecidableEq

/-- The combined-size validation of `handleAnalyze` (App.tsx lines
179-186): strictly more than `MAX_TOTAL_SIZE` bytes in total is rejected;
otherwise `analyzeContent` is called. -/
def handleAnalyzeSizeCheck (files : List Nat) : AnalyzeGate :=
  if totalSize files > MAX_TOTAL_SIZE then
    AnalyzeGate.rejected "Total file size exceeds 100MB. Please upload smaller files."
  else AnalyzeGate.proceeded files

/-- `FILE_SIZE_THRESHOLD` from `analyzeContent`: 20 MiB. -/
def FILE_SIZE_THRESHOLD : Nat := 20 * 1024 * 1024

/-- A content part of the outbound request: the prompt text, an inline
base64 part produced by `fileToPart`, or a remote reference produced by
`uploadLargeFile`.  Parts carry the originating byte size, which is the
only attribute the encoding decision reads. -/
inductive RequestPart where
  | text (content : List Char)
  | inlineData (size : Nat)
  | fileData (size : Nat)
deriving DecidableEq

/-- The per-file encoding decision of `analyzeContent`
(`file.size > FILE_SIZE_THRESHOLD` selects the upload path, otherwise the
inline path). -/
def partForFile (size : Nat) : RequestPart :=
  if size > FILE_SIZE_THRESHOLD then RequestPart.fileData size
  else RequestPart.inlineData size

/-- Step 2 of `analyzeContent`: the prompt text part first, then one
encoded part per file in input order, except that TrendHunter mode
processes no files. -/
def buildParts (mode : AppMode) (prompt : List Char) (files : List Nat) : List RequestPart :=
  RequestPart.text prompt ::
    (if mode ≠ AppMode.TREND_HUNTER then files.map partForFile else [])

/-- Field types used by the response schema literal. -/
inductive SchemaType where
  | OBJECT
  | STRING
  | NUMBER
  | ARRAY
deriving DecidableEq

/-- A schema descriptor: type, named properties, required property names,
and the element schema of an array. -/
inductive Schema where
  | mk (type : SchemaType) (properties : List (String × Schema))
       (required : List String) (items : Option Schema)

/-- The `responseSchema` literal of `analyzeContent` (lines 171-226),
mirroring the AnalysisResult shape. -/
def analysisResultSchema : Schema :=
  Schema.mk SchemaType.OBJECT
    [ ("visualAudit", Schema.mk SchemaType.OBJECT
        [ ("summary", Schema.mk SchemaType.STRING [] [] none)
        , ("hookIdentified", Schema.mk SchemaType.STRING [] [] none)
        , ("psychologyCheck", Schema.mk SchemaType.STRING [] [] none) ]
        ["summary", "hookIdentified", "psychologyCheck"] none)
    , ("strategy", Schema.mk SchemaType.OBJECT
        [ ("headline", Schema.mk SchemaType.STRING [] [] none)
        , ("caption", Schema.mk SchemaType.STRING [] [] none)
        , ("cta", Schema.mk SchemaType.STRING [] [] none) ]
        ["headline", "caption", "cta"] none)
    , ("seo", Schema.mk SchemaType.OBJECT
        [ ("hiddenKeywords", Schema.mk SchemaType.ARRAY [] []
            (some (Schema.mk SchemaType.STRING [] [] none)))
        , ("hashtags", Schema.mk SchemaType.OBJECT
            [ ("broad", Schema.mk SchemaType.ARRAY [] []
                (some (Schema.mk SchemaType.STRING [] [] none)))
            , ("niche", Schema.mk SchemaType.ARRAY [] []
                (some (Schema.mk SchemaType.STRING [] [] none)))
            , ("specific", Schema.mk SchemaType.ARRAY [] []
                (some (Schema.mk SchemaType.STRING [] [] none))) ]
            [] none) ]
        [] none)
    , ("virality", Schema.mk SchemaType.OBJECT
        [ ("score", Schema.mk SchemaType.NUMBER [] [] none)
        , ("gapAnalysis", Schema.mk SchemaType.STRING [] [] none)
        , ("trendDetected", Schema.mk SchemaType.STRING [] [] none)
        , ("vibe", Schema.mk SchemaType.STRING [] [] none) ]
        ["score", "gapAnalysis"] none)
    , ("competitorInsights", Schema.mk SchemaType.OBJECT
        [ ("visualTheme", Schema.mk SchemaType.STRING [] [] none)
        , ("ctaStrategy", Schema.mk SchemaType.STRING [] [] none)
        , ("formula", Schema.mk SchemaType.STRING [] [] none) ]
        [] none) ]
    ["visualAudit", "strategy", "seo", "virality"] none

/-- The tool entries of the outbound request; the source attaches
`[{ googleSearch: {} }]` on the search path. -/
inductive Tool where
  | googleSearch
deriving DecidableEq

/-- The `generateConfig` object assembled in step 3 of
`analyzeContent`. -/
structure OutboundConfig where
  systemInstruction : List Char
  thinkingBudget : Nat
  tools : List Tool
  responseMimeType : Option String
  responseSchema : Option Schema

/-- Step 3 of `analyzeContent`: `useSearch` is TrendHunter mode or the
live-trends flag; the search path attaches the Google-search tool and no
schema fields, the schema path sets the JSON mime type and the
AnalysisResult schema and no tools. -/
def buildGenerateConfig (mode : AppMode) (enableLiveTrends : Bool) : OutboundConfig :=
  let base : OutboundConfig :=
    { systemInstruction := SYSTEM_INSTRUCTION, thinkingBudget := 1024,
      tools := [], responseMimeType := none, responseSchema := none }
  let useSearch : Bool := (mode == AppMode.TREND_HUNTER) || enableLiveTrends
  if useSearch then
    { base with tools := [Tool.googleSearch] }
  else
    { base with responseMimeType := some "application/json",
                responseSchema := some analysisResultSchema }

/-- Configuration with every optional field absent except a geography
and a language, used to witness the targeting-block shape. -/
def twoFieldCfg : Config :=
  { goal := [], style := [], keywords := [], originalText := [],
    geography := cs "NYC", targetAudience := [], targetLanguage := cs "English",
    demographics := [], enableLiveTrends := false, brandGuidelines := [],
    niche := [] }

/-- Configuration for the TrendHunter counterexample: only the niche is
set. -/
def trendHunterCfg : Config :=
  { goal := [], style := [], keywords := [], originalText := [],
    geography := [], targetAudience := [], targetLanguage := [],
    demographics := [], enableLiveTrends := false, brandGuidelines := [],
    niche := cs "Vegan Cooking" }

/-- Configuration with the live-trends flag on and everything else
absent. -/
def liveTrendsCfg : Config :=
  { goal := [], style := [], keywords := [], originalText := [],
    geography := [], targetAudience := [], targetLanguage := [],
    demographics := [], enableLiveTrends := true, brandGuidelines := [],
    niche := [] }

/-- Environment in which the upload handle is created but every status
poll reports the file still processing: the loop exhausts its 30
attempts. -/
def processingInfo : FileInfo :=
  { state := "PROCESSING", uri := "https://files.example/handle", mimeType := "video/mp4" }

/-- Upload succeeds, every poll returns `processingInfo`. -/
def stuckUploadEnv : UploadEnv :=
  { upload := Except.ok "files/abc123", getFile := fun _ => Except.ok processingInfo }

/-- Upload succeeds, the first status fetch reports terminal FAILED. -/
def failedUploadEnv : UploadEnv :=
  { upload := Except.ok "files/abc123",
    getFile := fun _ => Except.ok { state := "FAILED", uri := "", mimeType := "video/mp4" } }

/-- The upload call itself fails with a transport error. -/
def transportFailEnv : UploadEnv :=
  { upload := Except.error "Network request failed",
    getFile := fun _ => Except.error "Network request failed" }

/-- C1: the outbound request configuration never carries the
Google-search tool and a strict output schema at the same time: in
TrendHunter mode or with live trends enabled the search tool is attached
and no responseSchema or responseMimeType is set; otherwise the
AnalysisResult schema and JSON mime type are set and no tool is
attached. -/
theorem C1_search_tool_and_schema_mutually_exclusive (mode : AppMode) (elt : Bool) :
    ((mode = AppMode.TREND_HUNTER ∨ elt = true) →
      (buildGenerateConfig mode elt).tools = [Tool.googleSearch] ∧
      (buildGenerateConfig mode elt).responseSchema = none ∧
      (buildGenerateConfig mode elt).responseMimeType = none) ∧
    ((mode ≠ AppMode.TREND_HUNTER ∧ elt = false) →
      (buildGenerateConfig mode elt).tools = [] ∧
      (buildGenerateConfig mode elt).responseSchema = some analysisResultSchema ∧
      (buildGenerateConfig mode elt).responseMimeType = some "application/json") ∧
    ¬((buildGenerateConfig mode elt).tools ≠ [] ∧
      (buildGenerateConfig mode elt).responseSchema.isSome = true) := by
  cases mode <;> cases elt <;> simp [buildGenerateConfig]

/-- C1 witness: both branches of the exclusivity at concrete inputs. -/
theorem C1_witness :
    ((buildGenerateConfig AppMode.TREND_HUNTER true).tools = [Tool.googleSearch] ∧
     (buildGenerateConfig AppMode.TREND_HUNTER true).responseSchema = none ∧
     (buildGenerateConfig AppMode.TREND_HUNTER true).responseMimeType = none) ∧
    ((buildGenerateConfig AppMode.GENERATION false).tools = [] ∧
     (buildGenerateConfig AppMode.GENERATION false).responseSchema = some analysisResultSchema ∧
     (buildGenerateConfig AppMode.GENERATION false).responseMimeType = some "application/json") :=
  ⟨(C1_search_tool_and_schema_mutually_exclusive AppMode.TREND_HUNTER true).1 (Or.inl rfl),
   (C1_search_tool_and_schema_mutually_exclusive AppMode.GENERATION false).2.1 ⟨by decide, rfl⟩⟩

/-- C2 counterexample: a file of size exactly 20 MiB takes the inline
path, not the upload path the claim assigns to sizes at the threshold. -/
theorem C2_threshold_boundary_counterexample :
    partForFile (20 * 1024 * 1024) = RequestPart.inlineData (20 * 1024 * 1024) ∧
    RequestPart.inlineData (20 * 1024 * 1024) ≠ RequestPart.fileData (20 * 1024 * 1024) := by
  decide

/-- C2 amended: a file strictly above the 20 MiB threshold goes through
the upload path and a file at or below it is inline encoded; in every
non-TrendHunter request each file is encoded this way, in input order. -/
theorem C2_threshold_amended :
    (∀ size : Nat, partForFile size = RequestPart.fileData size ↔ FILE_SIZE_THRESHOLD < size) ∧
    (∀ (mode : AppMode) (prompt : List Char) (files : List Nat),
      mode ≠ AppMode.TREND_HUNTER →
      buildParts mode prompt files = RequestPart.text prompt :: files.map partForFile) := by
  constructor
  · intro size
    simp only [partForFile]
    split
    · simp [*]
    · simp only [reduceCtorEq, false_iff]
      omega
  · intro mode prompt files h
    simp [buildParts, h]

/-- C2 amended witness: one byte above the threshold uploads, and a
Generate request maps each file through the encoding decision. -/
theorem C2_amended_witness :
    partForFile (20 * 1024 * 1024 + 1) = RequestPart.fileData (20 * 1024 * 1024 + 1) ∧
    buildParts AppMode.GENERATION [] [5] = [RequestPart.text [], RequestPart.inlineData 5] := by
  constructor
  · exact (C2_threshold_amended.1 (20 * 1024 * 1024 + 1)).mpr (by decide)
  · rw [C2_threshold_amended.2 AppMode.GENERATION [] [5] (by decide)]
    decide

/-- C3: evaluation at the failing input.  When every status poll reports
PROCESSING, the loop exhausts its 30 attempts and `uploadLargeFile`
returns a success payload built from the still-processing record instead
of raising an error; a terminal FAILED status, by contrast, does raise an
error (wrapped into the upload failure message by the catch). -/
theorem C3_poll_timeout_silent_success :
    uploadLargeFile stuckUploadEnv =
      Except.ok { fileUri := "https://files.example/handle", mimeType := "video/mp4" } ∧
    pollLoop stuckUploadEnv.getFile 30 processingInfo 0 = Except.ok processingInfo ∧
    processingInfo.state = "PROCESSING" ∧
    uploadLargeFile failedUploadEnv = Except.error UPLOAD_FAIL_MESSAGE := by
  exact ⟨rfl, rfl, rfl, rfl⟩

/-- C4: the TrendHunter normalization cases: a one-element trends array
is returned with its exact fields; an empty parse fails with the typed
no-trends error; top-level headline and contentIdea synthesize a
one-element sequence; an empty trends array with no fallback fields also
fails with the no-trends error. -/
theorem C4_trend_normalization_cases :
    normalizeTrendReply
      { trends := some [⟨"H", "W", "C"⟩],
        trend := none,
        headline := none,
        whyItsHot := none,
        contentIdea := none } = Except.ok [⟨"H", "W", "C"⟩] ∧
    normalizeTrendReply
      { trends := none,
        trend := none,
        headline := none,
        whyItsHot := none,
        contentIdea := none } = Except.error NO_TRENDS_MESSAGE ∧
    normalizeTrendReply
      { trends := none,
        trend := none,
        headline := some "H",
        whyItsHot := none,
        contentIdea := some "C" } =
      Except.ok [⟨"H", "Currently trending in your niche", "C"⟩] ∧
    normalizeTrendReply
      { trends := some [],
        trend := none,
        headline := none,
        whyItsHot := none,
        contentIdea := none } = Except.error NO_TRENDS_MESSAGE := by
  exact ⟨rfl, rfl, rfl, rfl⟩

/-- C5: a combined size of strictly more than 100 MiB is rejected by
`handleAnalyze` before `analyzeContent` (and hence any encoding or
network call) is reached, while exactly 100 MiB passes the gate. -/
theorem C5_total_size_validation (files : List Nat) :
    (MAX_TOTAL_SIZE + 1 ≤ totalSize files →
      handleAnalyzeSizeCheck files =
        AnalyzeGate.rejected "Total file size exceeds 100MB. Please upload smaller files.") ∧
    (totalSize files = MAX_TOTAL_SIZE →
      handleAnalyzeSizeCheck files = AnalyzeGate.proceeded files) := by
  constructor
  · intro h
    unfold handleAnalyzeSizeCheck
    rw [if_pos (by omega)]
  · intro h
    unfold handleAnalyzeSizeCheck
    rw [if_neg (by omega)]

/-- C5 witness: 100 MiB + 1 byte rejected, exactly 100 MiB proceeds. -/
theorem C5_witness :
    handleAnalyzeSizeCheck [100 * 1024 * 1024 + 1] =
      AnalyzeGate.rejected "Total file size exceeds 100MB. Please upload smaller files." ∧
    handleAnalyzeSizeCheck [100 * 1024 * 1024] =
      AnalyzeGate.proceeded [100 * 1024 * 1024] :=
  ⟨(C5_total_size_validation [100 * 1024 * 1024 + 1]).1 (by decide),
   (C5_total_size_validation [100 * 1024 * 1024]).2 (by decide)⟩

/-- C9 counterexample: a transport error during upload surfaces from
`uploadLargeFile` as the descriptive upload message, but the outer error
handler of `analyzeContent` maps that message to the generic connection
failure, so the error surfaced to the caller does not preserve the
upload-specific category. -/
theorem C9_upload_error_collapsed_counterexample :
    uploadLargeFile transportFailEnv = Except.error UPLOAD_FAIL_MESSAGE ∧
    mapAnalyzeError UPLOAD_FAIL_MESSAGE = CONNECTION_FAILED_MESSAGE ∧
    CONNECTION_FAILED_MESSAGE ≠ UPLOAD_FAIL_MESSAGE := by
  exact ⟨rfl, rfl, by decide⟩

/-- C9 amended: every failure inside the upload-and-poll sequence leaves
`uploadLargeFile` as the single descriptive upload error, and the outer
handler of `analyzeContent` then re-maps that message to the generic
connection-failure category (the upload message matches none of the
recognized substrings). -/
theorem C9_upload_error_amended :
    (∀ (env : UploadEnv) (e : String), uploadLargeFileInner env = Except.error e →
      uploadLargeFile env = Except.error UPLOAD_FAIL_MESSAGE) ∧
    mapAnalyzeError UPLOAD_FAIL_MESSAGE = CONNECTION_FAILED_MESSAGE := by
  constructor
  · intro env e h
    unfold uploadLargeFile
    rw [h]
  · rfl

/-- C9 amended witness: the wrapping applied to a concrete transport
failure. -/
theorem C9_amended_witness :
    uploadLargeFile transportFailEnv = Except.error UPLOAD_FAIL_MESSAGE :=
  C9_upload_error_amended.1 transportFailEnv "Network request failed" rfl

/-- C10: whenever the parsed TrendHunter reply has no usable trends array
but at least one truthy top-level `trend`, `contentIdea` or `headline`
field, normalization returns exactly one synthesized item whose fields
fall back to the fixed defaults when absent. -/
theorem C10_fallback_synthesis (p : ParsedTrendReply)
    (hTrends : p.trends = none ∨ p.trends = some [])
    (hAny : (truthy p.trend || truthy p.contentIdea || truthy p.headline) = true) :
    normalizeTrendReply p =
      Except.ok [{ headline := jsOrDefault p.headline "Trend Detected",
                   whyItsHot := jsOrDefault p.whyItsHot "Currently trending in your niche",
                   contentIdea := jsOrDefault p.contentIdea "Create content around this trend" }] := by
  rcases hTrends with h | h <;> simp [normalizeTrendReply, h, trendFallback, hAny]

/-- C10 witness: a top-level `trend` key alone (a shape the spec does not
list) triggers the fallback with all three defaults. -/
theorem C10_witness :
    normalizeTrendReply
      { trends := none,
        trend := some "AI pets",
        headline := none,
        whyItsHot := none,
        contentIdea := none } =
      Except.ok [{ headline := "Trend Detected",
                   whyItsHot := "Currently trending in your niche",
                   contentIdea := "Create content around this trend" }] := by
  have h := C10_fallback_synthesis
    { trends := none,
      trend := some "AI pets",
      headline := none,
      whyItsHot := none,
      contentIdea := none }
    (Or.inl rfl) (by decide)
  simpa [jsOrDefault] using h

/-- A labeled targeting line is never the empty string, since the label
itself is non-empty. -/
theorem label_append_ne_nil (lbl : String) (x : List Char)
    (h : 0 < (cs lbl).length) : cs lbl ++ x ≠ [] := by
  intro hc
  have hlen := congrArg List.length hc
  simp only [List.length_append, List.length_nil] at hlen
  omega

/-- C8: the targeting block is the join of exactly the labeled lines of
the non-empty fields among geography, audience, language and
demographics, in that fixed order; every retained line is non-empty, so
the block contains no blank lines. -/
theorem C8_targeting_block (cfg : Config) :
    targetingParts cfg =
      ((if cfg.geography = [] then [] else [cs "Target Geography: " ++ cfg.geography]) ++
       (if cfg.targetAudience = [] then [] else [cs "Target Audience: " ++ cfg.targetAudience]) ++
       (if cfg.targetLanguage = [] then [] else [cs "Target Language: " ++ cfg.targetLanguage]) ++
       (if cfg.demographics = [] then [] else [cs "Target Demographics: " ++ cfg.demographics])) ∧
    (∀ s ∈ targetingParts cfg, s ≠ []) ∧
    targeting cfg = List.intercalate (cs "\n") (targetingParts cfg) := by
  refine ⟨?_, ?_, rfl⟩
  · unfold targetingParts targetingRaw
    have g1 := label_append_ne_nil "Target Geography: " cfg.geography (by decide)
    have g2 := label_append_ne_nil "Target Audience: " cfg.targetAudience (by decide)
    have g3 := label_append_ne_nil "Target Language: " cfg.targetLanguage (by decide)
    have g4 := label_append_ne_nil "Target Demographics: " cfg.demographics (by decide)
    rcases eq_or_ne cfg.geography [] with h1 | h1 <;>
      rcases eq_or_ne cfg.targetAudience [] with h2 | h2 <;>
        rcases eq_or_ne cfg.targetLanguage [] with h3 | h3 <;>
          rcases eq_or_ne cfg.demographics [] with h4 | h4 <;>
            simp [h1, h2, h3, h4, List.filter_cons, List.isEmpty_iff, g1, g2, g3, g4]
  · intro s hs
    have hf := List.of_mem_filter hs
    simpa [List.isEmpty_iff] using hf

/-- C8 witness: with only geography and language set, the block is
exactly those two labeled lines and each is non-empty. -/
theorem C8_witness :
    targetingParts twoFieldCfg =
      [cs "Target Geography: NYC", cs "Target Language: English"] ∧
    cs "Target Geography: NYC" ≠ [] := by
  have h := C8_targeting_block twoFieldCfg
  refine ⟨?_, h.2.1 (cs "Target Geography: NYC") ?_⟩
  · rw [h.1]
    decide
  · decide

/-- C6 counterexample: in TrendHunter mode the composed prompt is the
TrendHunter mode template, which does not begin with the live-search
instruction block, at the concrete niche "Vegan Cooking" and date
"October 2026" on Twitter. -/
theorem C6_trendhunter_prompt_counterexample :
    composePrompt AppMode.TREND_HUNTER Platform.TWITTER trendHunterCfg (cs "October 2026") 0 =
      Except.ok (MODE_PROMPTS_TREND_HUNTER (cs "Vegan Cooking") (cs "October 2026")) ∧
    ((TREND_HUNTER_INSTRUCTION (cs "October 2026") (some (Platform.toStr Platform.TWITTER))).isPrefixOf
        (MODE_PROMPTS_TREND_HUNTER (cs "Vegan Cooking") (cs "October 2026"))) = false := by
  exact ⟨rfl, by decide⟩

/-- C6 amended: for every non-TrendHunter request with live trends
enabled, the composed prompt begins with the live-search instruction
block, and (at a representative date) that block contains the
Twitter-specific search instructions exactly when the platform is
Twitter/X; in TrendHunter mode the prompt is the TrendHunter template
instead. -/
theorem C6_live_trends_prefix_amended :
    (∀ (mode : AppMode) (p : Platform) (cfg : Config) (date : List Char) (n : Nat),
      mode ≠ AppMode.TREND_HUNTER → cfg.enableLiveTrends = true →
      ∃ rest, composePrompt mode p cfg date n =
        Except.ok (TREND_HUNTER_INSTRUCTION date (some p.toStr) ++ rest)) ∧
    (∀ q : Platform,
      containsSub (TREND_HUNTER_INSTRUCTION (cs "October 2026") (some q.toStr))
          (cs "STEP 1b: Specifically SEARCH for \"Trending topics on Twitter today\" and \"Viral discussions on X\".") =
        (q == Platform.TWITTER)) := by
  constructor
  · intro mode p cfg date n hmode helt
    apply Exists.intro
    unfold composePrompt
    rw [if_neg hmode, if_pos helt]
    simp only [List.append_assoc]
    rfl
  · intro q
    cases q <;> decide

/-- C6 amended witness: a Generate request on Twitter with live trends
enabled at the representative date. -/
theorem C6_amended_witness :
    (∃ rest, composePrompt AppMode.GENERATION Platform.TWITTER liveTrendsCfg (cs "October 2026") 0 =
      Except.ok (TREND_HUNTER_INSTRUCTION (cs "October 2026")
        (some (Platform.toStr Platform.TWITTER)) ++ rest)) ∧
    containsSub (TREND_HUNTER_INSTRUCTION (cs "October 2026")
        (some (Platform.toStr Platform.TWITTER)))
      (cs "STEP 1b: Specifically SEARCH for \"Trending topics on Twitter today\" and \"Viral discussions on X\".") =
      (Platform.TWITTER == Platform.TWITTER) :=
  ⟨C6_live_trends_prefix_amended.1 AppMode.GENERATION Platform.TWITTER liveTrendsCfg
      (cs "October 2026") 0 (by decide) rfl,
   C6_live_trends_prefix_amended.2 Platform.TWITTER⟩

/-- Digit characters are not whitespace. -/
theorem digitChar_not_ws (d : Nat) : isJsWhitespace (digitChar d) = false := by
  unfold digitChar
  repeat' split
  all_goals decide

/-- The decimal representation of a natural number is never empty. -/
theorem natChars_ne_nil (n : Nat) : natChars n ≠ [] := by
  unfold natChars
  split
  · simp
  · simp

/-- Every character of a decimal representation is a digit character,
hence not whitespace. -/
theorem mem_natChars_not_ws (n : Nat) : ∀ c ∈ natChars n, isJsWhitespace c = false := by
  induction n using Nat.strong_induction_on with
  | _ n ih =>
    unfold natChars
    split
    · intro c hc
      simp only [List.mem_singleton] at hc
      subst hc
      exact digitChar_not_ws n
    · intro c hc
      rw [List.mem_append] at hc
      rcases hc with h | h
      · exact ih (n / 10) (Nat.div_lt_self (by omega) (by omega)) c h
      · simp only [List.mem_singleton] at h
        subst h
        exact digitChar_not_ws (n % 10)

/-- Transfer of a concrete head to the head-not-whitespace property. -/
theorem head_not_ws_of_eq {l : List Char} {k : Char} (hk : l.head? = some k)
    (hkw : isJsWhitespace k = false) :
    ∀ c, l.head? = some c → isJsWhitespace c = false := by
  intro c hc
  rw [hk] at hc
  injection hc with h
  subst h
  exact hkw

/-- Transfer of a concrete last element to the last-not-whitespace
property. -/
theorem last_not_ws_of_eq {l : List Char} {k : Char} (hk : l.getLast? = some k)
    (hkw : isJsWhitespace k = false) :
    ∀ c, l.getLast? = some c → isJsWhitespace c = false := by
  intro c hc
  rw [hk] at hc
  injection hc with h
  subst h
  exact hkw

/-- The head of a decimal representation is not whitespace. -/
theorem natChars_head_not_ws (n : Nat) :
    ∀ c, (natChars n).head? = some c → isJsWhitespace c = false :=
  fun c hc => mem_natChars_not_ws n c (List.mem_of_mem_head? (Option.mem_def.mpr hc))

/-- The last character of a decimal representation is not whitespace. -/
theorem natChars_last_not_ws (n : Nat) :
    ∀ c, (natChars n).getLast? = some c → isJsWhitespace c = false :=
  fun c hc => mem_natChars_not_ws n c (List.mem_of_getLast?_eq_some hc)

/-- A serialized JSON value is never the empty string. -/
theorem serializeJson_ne_nil (v : Json) : serializeJson v ≠ [] := by
  cases v with
  | null => simp only [serializeJson]; decide
  | bool b => cases b <;> (simp only [serializeJson]; decide)
  | num n => simp only [serializeJson]; exact natChars_ne_nil n
  | str s => simp only [serializeJson]; exact List.cons_ne_nil _ _
  | arr es => simp only [serializeJson]; exact List.cons_ne_nil _ _
  | obj fs => simp only [serializeJson]; exact List.cons_ne_nil _ _

/-- A serialized JSON value starts with a non-whitespace character. -/
theorem serializeJson_head_not_ws (v : Json) :
    ∀ c, (serializeJson v).head? = some c → isJsWhitespace c = false := by
  cases v with
  | null => exact head_not_ws_of_eq (by simp only [serializeJson]; rfl) (by decide)
  | bool b =>
    cases b <;> exact head_not_ws_of_eq (by simp only [serializeJson]; rfl) (by decide)
  | num n => exact natChars_head_not_ws n
  | str s => exact head_not_ws_of_eq (by simp only [serializeJson]; rfl) (by decide)
  | arr es => exact head_not_ws_of_eq (by simp only [serializeJson]; rfl) (by decide)
  | obj fs => exact head_not_ws_of_eq (by simp only [serializeJson]; rfl) (by decide)

/-- A serialized JSON value ends with a non-whitespace character. -/
theorem serializeJson_last_not_ws (v : Json) :
    ∀ c, (serializeJson v).getLast? = some c → isJsWhitespace c = false := by
  cases v with
  | null => exact last_not_ws_of_eq (by simp only [serializeJson]; rfl) (by decide)
  | bool b =>
    cases b <;> exact last_not_ws_of_eq (by simp only [serializeJson]; rfl) (by decide)
  | num n => exact natChars_last_not_ws n
  | str s =>
    exact last_not_ws_of_eq
      (by simp only [serializeJson]
          rw [← List.cons_append]
          exact List.getLast?_concat _)
      (by decide)
  | arr es =>
    exact last_not_ws_of_eq
      (by simp only [serializeJson]
          rw [← List.cons_append]
          exact List.getLast?_concat _)
      (by decide)
  | obj fs =>
    exact last_not_ws_of_eq
      (by simp only [serializeJson]
          rw [← List.cons_append]
          exact List.getLast?_concat _)
      (by decide)

/-- `trimLeft` keeps a string whose first character is not whitespace. -/
theorem trimLeft_cons_not_ws {a : Char} {t : List Char}
    (h : isJsWhitespace a = false) : trimLeft (a :: t) = a :: t := by
  simp [trimLeft, List.dropWhile_cons, h]

/-- `trimRight` keeps a string whose last character is not whitespace. -/
theorem trimRight_of_last_not_ws {s : List Char}
    (h : ∀ c, s.getLast? = some c → isJsWhitespace c = false) :
    trimRight s = s := by
  unfold trimRight
  cases hr : s.reverse with
  | nil =>
    rw [List.reverse_eq_nil_iff] at hr
    simp [hr]
  | cons a t =>
    have ha : s.getLast? = some a := by
      rw [← List.head?_reverse, hr]
      rfl
    have haw : ¬ (isJsWhitespace a = true) := by simp [h a ha]
    rw [List.dropWhile_cons_of_neg haw]
    rw [← hr, List.reverse_reverse]

/-- `jsTrim` keeps a string whose edges are not whitespace. -/
theorem jsTrim_eq_self {l : List Char}
    (hh : ∀ c, l.head? = some c → isJsWhitespace c = false)
    (hl : ∀ c, l.getLast? = some c → isJsWhitespace c = false) :
    jsTrim l = l := by
  unfold jsTrim
  have htl : trimLeft l = l := by
    cases l with
    | nil => rfl
    | cons a t => exact trimLeft_cons_not_ws (hh a rfl)
  rw [htl]
  exact trimRight_of_last_not_ws hl

/-- `trimRight` strips a single trailing space from a string whose own
last character is not whitespace. -/
theorem trimRight_append_space {s : List Char} (hne : s ≠ [])
    (h : ∀ c, s.getLast? = some c → isJsWhitespace c = false) :
    trimRight (s ++ [' ']) = s := by
  unfold trimRight
  rw [List.reverse_append]
  rw [show ([' '] : List Char).reverse = [' '] from rfl, List.singleton_append]
  rw [List.dropWhile_cons_of_pos (by decide)]
  have hrne : s.reverse ≠ [] := by
    simpa [List.reverse_eq_nil_iff] using hne
  obtain ⟨a, t, hr⟩ := List.exists_cons_of_ne_nil hrne
  have ha : s.getLast? = some a := by
    rw [← List.head?_reverse, hr]
    rfl
  rw [hr, List.dropWhile_cons_of_neg (by simp [h a ha]), ← hr, List.reverse_reverse]

/-- The trailing-fence strip removes exactly the closing fence and the
single space before it. -/
theorem stripTrailingFence_append (s : List Char) (hne : s ≠ [])
    (hl : ∀ c, s.getLast? = some c → isJsWhitespace c = false) :
    stripTrailingFence (s ++ cs " ```") = s := by
  unfold stripTrailingFence
  have hsuf : (cs "```").isSuffixOf (s ++ cs " ```") = true := by
    rw [List.isSuffixOf_iff_suffix]
    exact ⟨s ++ [' '], by rw [List.append_assoc]; rfl⟩
  rw [if_pos hsuf]
  have hlen : (s ++ cs " ```").length - 3 = s.length + 1 := by
    rw [List.length_append, show (cs " ```").length = 4 from rfl]
    omega
  rw [hlen, List.take_append, show (cs " ```").take 1 = [' '] from rfl]
  exact trimRight_append_space hne hl

/-- Cleanup of a json-tagged fenced text recovers the enclosed body when
the body has non-whitespace edges. -/
theorem cleanJson_json_fence (s : List Char) (hne : s ≠ [])
    (hh : ∀ c, s.head? = some c → isJsWhitespace c = false)
    (hl : ∀ c, s.getLast? = some c → isJsWhitespace c = false) :
    cleanJson (cs "```json " ++ s ++ cs " ```") = s := by
  have hlastF : (cs "```json " ++ s ++ cs " ```").getLast? = some '`' := by
    rw [show cs " ```" = cs " ``" ++ ['`'] from rfl, ← List.append_assoc]
    exact List.getLast?_concat _
  have htrim : jsTrim (cs "```json " ++ s ++ cs " ```") = cs "```json " ++ s ++ cs " ```" :=
    jsTrim_eq_self
      (head_not_ws_of_eq (show _ = some '`' from rfl) (by decide))
      (last_not_ws_of_eq hlastF (by decide))
  simp only [cleanJson]
  rw [htrim]
  rw [if_pos (show (cs "```json").isPrefixOf (cs "```json " ++ s ++ cs " ```") = true from rfl)]
  rw [show (cs "```json " ++ s ++ cs " ```").drop 7 = ' ' :: (s ++ cs " ```") from rfl]
  rw [List.dropWhile_cons_of_pos (by decide)]
  obtain ⟨a, t, hs⟩ := List.exists_cons_of_ne_nil hne
  have hha : isJsWhitespace a = false := hh a (by rw [hs]; rfl)
  rw [hs, List.cons_append, List.dropWhile_cons_of_neg (by simp [hha]),
      ← List.cons_append, ← hs]
  exact stripTrailingFence_append s hne hl

/-- Cleanup of a bare fenced text recovers the enclosed body when the
body has non-whitespace edges. -/
theorem cleanJson_bare_fence (s : List Char) (hne : s ≠ [])
    (hh : ∀ c, s.head? = some c → isJsWhitespace c = false)
    (hl : ∀ c, s.getLast? = some c → isJsWhitespace c = false) :
    cleanJson (cs "``` " ++ s ++ cs " ```") = s := by
  have hlastF : (cs "``` " ++ s ++ cs " ```").getLast? = some '`' := by
    rw [show cs " ```" = cs " ``" ++ ['`'] from rfl, ← List.append_assoc]
    exact List.getLast?_concat _
  have htrim : jsTrim (cs "``` " ++ s ++ cs " ```") = cs "``` " ++ s ++ cs " ```" :=
    jsTrim_eq_self
      (head_not_ws_of_eq (show _ = some '`' from rfl) (by decide))
      (last_not_ws_of_eq hlastF (by decide))
  have hnotJson : ¬ ((cs "```json").isPrefixOf (cs "``` " ++ s ++ cs " ```") = true) := by
    rw [show (cs "```json").isPrefixOf (cs "``` " ++ s ++ cs " ```") = false from rfl]
    simp
  simp only [cleanJson]
  rw [htrim]
  rw [if_neg hnotJson]
  rw [if_pos (show (cs "```").isPrefixOf (cs "``` " ++ s ++ cs " ```") = true from rfl)]
  rw [show (cs "``` " ++ s ++ cs " ```").drop 3 = ' ' :: (s ++ cs " ```") from rfl]
  rw [List.dropWhile_cons_of_pos (by decide)]
  obtain ⟨a, t, hs⟩ := List.exists_cons_of_ne_nil hne
  have hha : isJsWhitespace a = false := hh a (by rw [hs]; rfl)
  rw [hs, List.cons_append, List.dropWhile_cons_of_neg (by simp [hha]),
      ← List.cons_append, ← hs]
  exact stripTrailingFence_append s hne hl

/-- C7: for every JSON value, cleaning the fenced rendering (with or
without the json language tag) returns exactly the bare serialized text,
so parsing the cleaned fenced text and parsing the bare text agree; in
particular the spec test vector for a small object holds. -/
theorem C7_clean_json_roundtrip :
    (∀ v : Json,
      cleanJson (cs "```json " ++ serializeJson v ++ cs " ```") = serializeJson v ∧
      cleanJson (cs "``` " ++ serializeJson v ++ cs " ```") = serializeJson v) ∧
    cleanJson (cs "```json \x7b\"a\":1\x7d ```") = cs "\x7b\"a\":1\x7d" := by
  constructor
  · intro v
    exact ⟨cleanJson_json_fence _ (serializeJson_ne_nil v)
        (serializeJson_head_not_ws v) (serializeJson_last_not_ws v),
      cleanJson_bare_fence _ (serializeJson_ne_nil v)
        (serializeJson_head_not_ws v) (serializeJson_last_not_ws v)⟩
  · decide
